import Mathlib

/- Formal model of the kafb2b_api_client (src/main.py): the URL resolver
   `_split_base_and_token_endpoint`, the structural token locator `_find_token`,
   the token issuer `request_access_token`, the authorized request executor
   `_post_market_endpoint`, and the expiration-retry wrappers
   `request_sales_price` / `request_trans_info`.  The HTTP transport is the
   external collaborator: it is modelled as a value of type `HttpResponse`
   (status code, raw text, and the result of attempting to parse the body as
   JSON), and for the retry wrappers as an oracle assigning a response to each
   network call in order.  Python exceptions are modelled with `Except`;
   `ExpiredTokenError` and the plain `RuntimeError` are the two constructors of
   `PyError`.  String primitives are modelled on `List Char` so that every
   definition evaluates by kernel reduction. -/

/-- Python `s.lower()` restricted to per-character lowering (the URLs and keys
    involved are ASCII, where this agrees with CPython). -/
def pyLower (s : String) : String := String.mk (s.toList.map Char.toLower)

/-- Python `s[:n]`: the first `n` characters of `s`. -/
def pyTake (n : Nat) (s : String) : String := String.mk (s.toList.take n)

/-- Python `s.strip()`: remove leading and trailing whitespace. -/
def pyStrip (s : String) : String :=
  String.mk (((s.toList.dropWhile Char.isWhitespace).reverse.dropWhile Char.isWhitespace).reverse)

/-- Whether list `p` is a prefix of list `l` (Boolean, by direct recursion). -/
def isPrefixL : List Char → List Char → Bool
  | [], _ => true
  | _ :: _, [] => false
  | a :: as, b :: bs => a == b && isPrefixL as bs

/-- Whether `needle` occurs as a contiguous sublist of the second list. -/
def isSubL (needle : List Char) : List Char → Bool
  | [] => isPrefixL needle []
  | c :: cs => isPrefixL needle (c :: cs) || isSubL needle cs

/-- Python `needle in hay` for strings: substring containment. -/
def strContainsSub (hay needle : String) : Bool := isSubL needle.toList hay.toList

/-- Python `s.endswith(suffix)`. -/
def strEndsWith (s suffix : String) : Bool := isPrefixL suffix.toList.reverse s.toList.reverse

/-- Python `c in s` for a single character. -/
def containsChar (s : String) (c : Char) : Bool := s.toList.any (fun a => a == c)

/-- Python `s.rstrip("/")`: drop every trailing slash. -/
def rstripSlashes (s : String) : String :=
  String.mk ((s.toList.reverse.dropWhile (fun c => c == '/')).reverse)

/-- Scan a (reversed) character list up to the first `'/'`: returns the scanned
    part and, when a slash was found, the remainder after it.  This is the core
    of Python `s.rsplit("/", 1)`. -/
def breakSlash : List Char → List Char × Option (List Char)
  | [] => ([], none)
  | c :: cs =>
    if c = '/' then ([], some cs)
    else
      let p := breakSlash cs
      (c :: p.1, p.2)

/-- Python `s.rsplit("/", 1)` reported as the pair `(parts[0], parts[-1])`:
    with a slash present this is (text before the last slash, last segment);
    with no slash present both components are `s` itself. -/
def rsplitSlash1 (s : String) : String × String :=
  match breakSlash s.toList.reverse with
  | (seg, some pre) => (String.mk pre.reverse, String.mk seg.reverse)
  | (_, none) => (s, s)

/-- The last path segment of `s` (Python `s.rsplit("/", 1)[-1]`). -/
def last_segment (s : String) : String := (rsplitSlash1 s).2

/-- Everything before the last slash of `s` (Python `s.rsplit("/", 1)[0]`). -/
def before_last (s : String) : String := (rsplitSlash1 s).1

/-- The document-style test applied to the last path segment in
    `_split_base_and_token_endpoint`: the lowercased segment ends with one of
    `.do`, `.json`, `.php`, `.asp`, or the raw segment contains a dot. -/
def isDocSegment (seg : String) : Bool :=
  (strEndsWith (pyLower seg) ".do" || strEndsWith (pyLower seg) ".json" ||
    strEndsWith (pyLower seg) ".php" || strEndsWith (pyLower seg) ".asp") ||
  containsChar seg '.'

/-- `_split_base_and_token_endpoint` from src/main.py: normalize the configured
    URL so we always have a `(resource_base, token_endpoint)` pair. -/
def split_base_and_token_endpoint (api_base : String) : String × String :=
  let normalized := rstripSlashes api_base
  let lastSeg := last_segment normalized
  if isDocSegment lastSeg then (before_last normalized, normalized)
  else (normalized, normalized ++ "/access_token.do")

/- JSON values, as produced by `resp.json()`: objects keep their entries in
   insertion order (CPython dicts iterate in insertion order), arrays keep
   index order.  Numbers are modelled as integers; no claim depends on
   numerics.  The three types are mutually inductive so that all recursive
   definitions below are structural and evaluate by kernel reduction. -/

mutual

inductive Json where
  | null
  | bool (b : Bool)
  | num (n : Int)
  | str (s : String)
  | arr (xs : JsonItems)
  | obj (kvs : JsonEntries)

inductive JsonItems where
  | nil
  | cons (hd : Json) (tl : JsonItems)

inductive JsonEntries where
  | nil
  | cons (key : String) (val : Json) (tl : JsonEntries)

end

/-- The per-entry test of `_find_token`:
    `k.lower() == "tkn_info" and isinstance(v, str) and v.strip()`, returning
    the raw string value `v` on success. -/
def tknHit (k : String) (v : Json) : Option String :=
  if pyLower k = "tkn_info" then
    match v with
    | Json.str s => if pyStrip s = "" then none else some s
    | _ => none
  else none

mutual

/-- `_find_token` from src/main.py: recursively search a JSON-like structure
    for key `TKN_INFO` (case-insensitive) bound to a string that is non-empty
    after stripping. -/
def find_token : Json → Option String
  | Json.obj kvs => find_token_entries kvs
  | Json.arr xs => find_token_items xs
  | _ => none
termination_by structural j => j

/-- The dict loop of `_find_token`: per entry, first the key test, then the
    recursive descent (guarded by Python truthiness of the returned value),
    then the remaining entries. -/
def find_token_entries : JsonEntries → Option String
  | JsonEntries.nil => none
  | JsonEntries.cons k v rest =>
    match tknHit k v with
    | some s => some s
    | none =>
      match find_token v with
      | some s => if s = "" then find_token_entries rest else some s
      | none => find_token_entries rest
termination_by structural l => l

/-- The list loop of `_find_token`. -/
def find_token_items : JsonItems → Option String
  | JsonItems.nil => none
  | JsonItems.cons x rest =>
    match find_token x with
    | some s => if s = "" then find_token_items rest else some s
    | none => find_token_items rest
termination_by structural l => l

end

/-- The hit test as the spec words it (C5, amended): a key matching `TKN_INFO`
    case-insensitively whose value is a string containing at least one
    non-whitespace character. -/
def spec_key_hit (k : String) (v : Json) : Option String :=
  if pyLower k = "tkn_info" then
    match v with
    | Json.str s => if s.toList.any (fun c => !c.isWhitespace) then some s else none
    | _ => none
  else none

mutual

/-- The Structural Token Locator as the spec describes it: return the first
    hit in depth-first traversal order, descending into a value before moving
    to its later siblings, and the not-found sentinel otherwise. -/
def spec_first_hit : Json → Option String
  | Json.obj kvs => spec_hit_entries kvs
  | Json.arr xs => spec_hit_items xs
  | _ => none
termination_by structural j => j

def spec_hit_entries : JsonEntries → Option String
  | JsonEntries.nil => none
  | JsonEntries.cons k v rest =>
    match spec_key_hit k v with
    | some s => some s
    | none =>
      match spec_first_hit v with
      | some s => some s
      | none => spec_hit_entries rest
termination_by structural l => l

def spec_hit_items : JsonItems → Option String
  | JsonItems.nil => none
  | JsonItems.cons x rest =>
    match spec_first_hit x with
    | some s => some s
    | none => spec_hit_items rest
termination_by structural l => l

end

/-- One escaped character of a CPython string repr with quote character `q`
    (the characters appearing in this development are printable, so the
    `\xNN` forms for non-printable characters are not needed). -/
def escChar (q : Char) (c : Char) : List Char :=
  if c = '\\' then ['\\', '\\']
  else if c = q then ['\\', q]
  else if c = '\n' then ['\\', 'n']
  else if c = '\r' then ['\\', 'r']
  else if c = '\t' then ['\\', 't']
  else [c]

/-- Escape a whole character list. -/
def escBody (q : Char) : List Char → List Char
  | [] => []
  | c :: cs => escChar q c ++ escBody q cs

/-- CPython `repr` of a string: single-quoted, unless the string contains a
    single quote and no double quote. -/
def pyReprString (s : String) : String :=
  let q : Char := if s.toList.any (fun c => c == '\x27') && !(s.toList.any (fun c => c == '"')) then '"' else '\x27'
  String.mk (q :: (escBody q s.toList ++ [q]))

mutual

/-- CPython `repr` of a parsed-JSON value (dicts render as
    `\x7b'k': v, ...\x7d`, lists as `[v, ...]`, `None`/`True`/`False` for the
    scalars). -/
def pyRepr : Json → String
  | Json.null => "None"
  | Json.bool true => "True"
  | Json.bool false => "False"
  | Json.num n => toString n
  | Json.str s => pyReprString s
  | Json.arr xs => "[" ++ pyReprItems xs ++ "]"
  | Json.obj kvs => "\x7b" ++ pyReprEntries kvs ++ "\x7d"
termination_by structural j => j

def pyReprItems : JsonItems → String
  | JsonItems.nil => ""
  | JsonItems.cons x JsonItems.nil => pyRepr x
  | JsonItems.cons x rest => pyRepr x ++ ", " ++ pyReprItems rest
termination_by structural l => l

def pyReprEntries : JsonEntries → String
  | JsonEntries.nil => ""
  | JsonEntries.cons k v JsonEntries.nil => pyReprString k ++ ": " ++ pyRepr v
  | JsonEntries.cons k v rest => pyReprString k ++ ": " ++ pyRepr v ++ ", " ++ pyReprEntries rest
termination_by structural l => l

end

/-- CPython `str` of a parsed-JSON value: the identity on strings, `repr` on
    everything else. -/
def pyStr : Json → String
  | Json.str s => s
  | j => pyRepr j

/-- Python `dict.get(key, default)` over the entry list (parsed-JSON dicts
    have unique keys; the first match is returned). -/
def entriesGet : JsonEntries → String → Option Json
  | JsonEntries.nil, _ => none
  | JsonEntries.cons k v rest, key => if k = key then some v else entriesGet rest key

/-- What the transport hands back for one POST: HTTP status code, raw body
    text, and the result of `resp.json()` (`none` when the body is not JSON). -/
structure HttpResponse where
  status_code : Nat
  text : String
  jsonBody : Option Json

/-- `requests.Response.raise_for_status` raises, and `Response.ok` is false,
    exactly for the 4xx/5xx client- and server-error statuses. -/
def httpFailure (c : Nat) : Bool := decide (400 ≤ c ∧ c < 600)

/-- The two error kinds the modelled code raises: `ExpiredTokenError` and the
    plain `RuntimeError` (the spec names the latter `TokenRequestError` or
    `BusinessRequestError` depending on the raising site). -/
inductive PyError where
  | expiredToken (msg : String)
  | runtimeErr (msg : String)

/-- `request_access_token` from src/main.py, as a function of the transport's
    response: raise on HTTP failure status, on a non-JSON body, and on a falsy
    `_find_token` result; otherwise return the token. -/
def request_access_token (resp : HttpResponse) : Except PyError String :=
  if httpFailure resp.status_code then
    Except.error (PyError.runtimeErr
      ("Token 요청 실패 (" ++ toString resp.status_code ++ "): " ++ pyTake 300 resp.text))
  else
    match resp.jsonBody with
    | none => Except.error (PyError.runtimeErr ("API response is not JSON: " ++ pyTake 300 resp.text))
    | some data =>
      match find_token data with
      | some token =>
        if token = "" then
          Except.error (PyError.runtimeErr ("API response missing TKN_INFO. Body: " ++ pyRepr data))
        else Except.ok token
      | none =>
        Except.error (PyError.runtimeErr ("API response missing TKN_INFO. Body: " ++ pyRepr data))

/-- The `message` computed by `_post_market_endpoint` on a failure status:
    `str(data.get("MESSAGE", "")).strip()` when the parsed body is a dict,
    `""` otherwise. -/
def business_message (resp : HttpResponse) : String :=
  match resp.jsonBody with
  | some (Json.obj kvs) =>
    pyStrip (pyStr (match entriesGet kvs "MESSAGE" with
      | some v => v
      | none => Json.str ""))
  | _ => ""

/-- `_post_market_endpoint` from src/main.py, as a function of the transport's
    response and the operation label (`context`): classify the response into
    expired-token error, generic failure, non-JSON-body error, or success.
    `data` is the Python value of `resp.json()` guarded by `except ValueError`:
    it is Python `None` both when the body is unparseable (`jsonBody = none`)
    and when the body is the JSON literal `null` (CPython parses `null` to
    `None` without raising), so `if data is None` cannot tell the two apart. -/
def post_market_endpoint (resp : HttpResponse) (context : String) : Except PyError Json :=
  let data : Option Json :=
    match resp.jsonBody with
    | some Json.null => none
    | d => d
  if httpFailure resp.status_code then
    let message := business_message resp
    if message ≠ "" ∧ strContainsSub message "만료" = true then
      Except.error (PyError.expiredToken (if message = "" then "만료된 토큰입니다." else message))
    else
      Except.error (PyError.runtimeErr
        (context ++ " 요청 실패 (" ++ toString resp.status_code ++ "): " ++
          (if message = "" then pyTake 300 resp.text else message)))
  else
    match data with
    | none =>
      Except.error (PyError.runtimeErr (context ++ " 응답이 JSON이 아닙니다: " ++ pyTake 300 resp.text))
    | some d => Except.ok d

/-- The observable network actions of one wrapper run. -/
inductive CallKind where
  | tokenIssue
  | bizCall (url : String)

/-- One `_request()` body: issue a token (one network call), and if that
    succeeded perform the business call (one more network call).  `net` is the
    transport oracle: `net i` is the response to the `i`-th network call of the
    whole operation.  Returns the result, the calls performed, and the index of
    the next unused response. -/
def run_request (net : Nat → HttpResponse) (i : Nat) (url context : String) :
    Except PyError Json × List CallKind × Nat :=
  match request_access_token (net i) with
  | Except.error e => (Except.error e, [CallKind.tokenIssue], i + 1)
  | Except.ok _token =>
    (post_market_endpoint (net (i + 1)) context, [CallKind.tokenIssue, CallKind.bizCall url], i + 2)

/-- The sales-price business endpoint for a configured URL. -/
def sales_endpoint (api_base : String) : String :=
  (split_base_and_token_endpoint api_base).1 ++ "/excclcPrcInfo.do"

/-- The transaction-info business endpoint for a configured URL. -/
def trans_endpoint (api_base : String) : String :=
  (split_base_and_token_endpoint api_base).1 ++ "/trnsoInfo.do"

/-- `request_sales_price` from src/main.py: run `_request()`; on
    `ExpiredTokenError` run `_request()` once more and return its outcome;
    every other outcome of the first attempt is final. -/
def request_sales_price (net : Nat → HttpResponse) (api_base : String) :
    Except PyError Json × List CallKind :=
  let url := sales_endpoint api_base
  let first := run_request net 0 url "판매원장"
  match first.1 with
  | Except.error (PyError.expiredToken _) =>
    let retry := run_request net first.2.2 url "판매원장"
    (retry.1, first.2.1 ++ retry.2.1)
  | r => (r, first.2.1)

/-- `request_trans_info` from src/main.py: same retry shape as
    `request_sales_price`, against the other endpoint and label. -/
def request_trans_info (net : Nat → HttpResponse) (api_base : String) :
    Except PyError Json × List CallKind :=
  let url := trans_endpoint api_base
  let first := run_request net 0 url "거래정보"
  match first.1 with
  | Except.error (PyError.expiredToken _) =>
    let retry := run_request net first.2.2 url "거래정보"
    (retry.1, first.2.1 ++ retry.2.1)
  | r => (r, first.2.1)

/-- Number of token-issuance calls in a trace. -/
def countTokenIssue : List CallKind → Nat
  | [] => 0
  | CallKind.tokenIssue :: rest => countTokenIssue rest + 1
  | CallKind.bizCall _ :: rest => countTokenIssue rest

/-- Number of business calls in a trace. -/
def countBizCall : List CallKind → Nat
  | [] => 0
  | CallKind.tokenIssue :: rest => countBizCall rest
  | CallKind.bizCall _ :: rest => countBizCall rest + 1

/- Concrete transport fixtures used by the witness theorems below. -/

/-- A token-issuance response carrying a token. -/
def tokenOkResp : HttpResponse :=
  ⟨200, "", some (Json.obj (JsonEntries.cons "TKN_INFO" (Json.str "tok") JsonEntries.nil))⟩

/-- A business-call failure whose `MESSAGE` reports an expired token. -/
def expiredResp : HttpResponse :=
  ⟨400, "", some (Json.obj (JsonEntries.cons "MESSAGE" (Json.str "토큰이 만료되었습니다") JsonEntries.nil))⟩

/-- A business-call failure whose `MESSAGE` does not contain the marker. -/
def bizFailResp : HttpResponse :=
  ⟨500, "oops", some (Json.obj (JsonEntries.cons "MESSAGE" (Json.str "server error") JsonEntries.nil))⟩

/-- A successful status whose body is not JSON. -/
def notJsonResp : HttpResponse := ⟨200, "<html>", none⟩

/-- A successful business response. -/
def bizOkResp : HttpResponse := ⟨200, "", some (Json.obj JsonEntries.nil)⟩

/-- A failing token-issuance response. -/
def badTokenResp : HttpResponse := ⟨500, "boom", none⟩

/-- Transport oracle: the second network call (the first business call) reports
    an expired token; every other call behaves well. -/
def netExpireOnce : Nat → HttpResponse := fun i => if i = 1 then expiredResp else tokenOkResp

/-- Transport oracle: every token issuance fails. -/
def netTokenFail : Nat → HttpResponse := fun _ => badTokenResp

/-- Parsed body with no token whose repr is far longer than 300 characters. -/
def c4_body : Json := Json.str (String.mk (List.replicate 400 'a'))

/-- A response triggering the missing-token error with an empty raw text. -/
def c4_resp : HttpResponse := ⟨200, "", some c4_body⟩

/-- A JSON object whose `TKN_INFO` value is the non-empty string `" "`. -/
def c5_blank_obj : Json := Json.obj (JsonEntries.cons "TKN_INFO" (Json.str " ") JsonEntries.nil)

/- Helper lemmas about the string primitives. -/

/-- `breakSlash` over a slash-free list scans the whole list. -/
theorem breakSlash_no_slash : ∀ (cs : List Char), '/' ∉ cs → breakSlash cs = (cs, none)
  | [], _ => rfl
  | c :: cs, h => by
    have hc : ¬ (c = '/') := fun hce => h (by rw [hce]; exact List.mem_cons_self _ _)
    unfold breakSlash
    rw [if_neg hc]
    rw [breakSlash_no_slash cs (fun hm => h (List.mem_cons_of_mem c hm))]

/-- `breakSlash` stops at the first slash. -/
theorem breakSlash_append : ∀ (xs ys : List Char), '/' ∉ xs →
    breakSlash (xs ++ '/' :: ys) = (xs, some ys)
  | [], ys, _ => by simp [breakSlash]
  | x :: xs, ys, h => by
    have hc : ¬ (x = '/') := fun hce => h (by rw [hce]; exact List.mem_cons_self _ _)
    unfold breakSlash
    rw [List.cons_append]
    simp only []
    rw [if_neg hc]
    rw [breakSlash_append xs ys (fun hm => h (List.mem_cons_of_mem x hm))]

/-- On a list containing a slash, `breakSlash` splits it at the first slash. -/
theorem breakSlash_mem : ∀ (cs : List Char), '/' ∈ cs →
    ∃ a b, breakSlash cs = (a, some b) ∧ a ++ '/' :: b = cs ∧ '/' ∉ a
  | c :: cs, h => by
    by_cases hc : c = '/'
    · subst hc
      exact ⟨[], cs, by unfold breakSlash; rw [if_pos rfl], rfl, List.not_mem_nil '/'⟩
    · have hm : '/' ∈ cs := by
        rcases List.mem_cons.mp h with h1 | h1
        · exact absurd h1.symm hc
        · exact h1
      obtain ⟨a, b, hb, hsum, hnot⟩ := breakSlash_mem cs hm
      refine ⟨c :: a, b, ?_, ?_, ?_⟩
      · unfold breakSlash
        rw [if_neg hc, hb]
      · rw [List.cons_append, hsum]
      · intro hx
        rcases List.mem_cons.mp hx with h1 | h1
        · exact hc h1.symm
        · exact hnot h1

/-- Concatenating two `String.mk` values concatenates the character lists. -/
theorem strMk_append (xs ys : List Char) : String.mk xs ++ String.mk ys = String.mk (xs ++ ys) := rfl

/-- `String.mk` of a string's own characters gives that string back. -/
theorem strMk_toList (s : String) : String.mk s.toList = s := rfl

/-- Splitting a string that does contain a slash: the two parts reassemble the
    string around its last slash, and the last segment is slash-free. -/
theorem rsplit_decomp (s : String) (h : '/' ∈ s.toList) :
    before_last s ++ "/" ++ last_segment s = s ∧ '/' ∉ (last_segment s).toList := by
  have hrev : '/' ∈ s.toList.reverse := List.mem_reverse.mpr h
  obtain ⟨a, b, hb, hsum, hnot⟩ := breakSlash_mem s.toList.reverse hrev
  have hsplit : rsplitSlash1 s = (String.mk b.reverse, String.mk a.reverse) := by
    unfold rsplitSlash1
    rw [hb]
  constructor
  · show before_last s ++ "/" ++ last_segment s = s
    unfold before_last last_segment
    rw [hsplit]
    apply String.ext
    rw [String.data_append, String.data_append]
    have hslash : ("/" : String).data = ['/'] := rfl
    rw [hslash, List.append_assoc, List.singleton_append]
    show (b.reverse ++ '/' :: a.reverse : List Char) = s.data
    have : s.toList = b.reverse ++ '/' :: a.reverse := by
      have := congrArg List.reverse hsum
      rw [List.reverse_reverse] at this
      rw [← this, List.reverse_append, List.reverse_cons, List.append_assoc]
      simp
    exact this.symm
  · unfold last_segment
    rw [hsplit]
    show '/' ∉ (String.mk a.reverse).toList
    intro hx
    exact hnot (List.mem_reverse.mp hx)

/-- Appending `"/tail"` (with `tail` slash-free) to any string makes `tail` the
    last segment and the original string the part before the last slash. -/
theorem rsplit_append (s : String) (cs : List Char) (h : '/' ∉ cs) :
    rsplitSlash1 (s ++ String.mk ('/' :: cs)) = (s, String.mk cs) := by
  have hdata : (s ++ String.mk ('/' :: cs)).toList = s.data ++ '/' :: cs := String.data_append s _
  unfold rsplitSlash1
  rw [hdata, List.reverse_append, List.reverse_cons, List.append_assoc, List.singleton_append]
  rw [breakSlash_append cs.reverse s.data.reverse (fun hm => h (List.mem_reverse.mp hm))]
  simp only [List.reverse_reverse]

/-- Stripping trailing slashes is idempotent. -/
theorem rstripSlashes_idem (s : String) : rstripSlashes (rstripSlashes s) = rstripSlashes s := by
  unfold rstripSlashes
  have h1 : (String.mk ((s.toList.reverse.dropWhile (fun c => c == '/')).reverse)).toList =
      (s.toList.reverse.dropWhile (fun c => c == '/')).reverse := rfl
  rw [h1, List.reverse_reverse, List.dropWhile_idempotent]

/-- A string whose last character is not a slash is untouched by `rstrip("/")`. -/
theorem rstrip_of_rev_head (x : String) (c : Char) (l : List Char)
    (h : x.toList.reverse = c :: l) (hc : (c == '/') = false) : rstripSlashes x = x := by
  unfold rstripSlashes
  rw [h, List.dropWhile_cons, hc]
  simp only [Bool.false_eq_true, if_false]
  rw [← h, List.reverse_reverse]
  rfl

/-- Appending the fixed token path leaves nothing for `rstrip("/")` to strip. -/
theorem rstrip_append_doc (s : String) :
    rstripSlashes (s ++ "/access_token.do") = s ++ "/access_token.do" := by
  apply rstrip_of_rev_head (s ++ "/access_token.do") 'o' ("d.nekot_ssecca/".data ++ s.data.reverse)
  · have hdata : (s ++ "/access_token.do").toList = s.data ++ "/access_token.do".data :=
      String.data_append s _
    rw [hdata, List.reverse_append]
    have hrev : ("/access_token.do".data).reverse = 'o' :: "d.nekot_ssecca/".data := by decide
    rw [hrev]
    rfl
  · decide

/-- The resolved token path splits off as the last segment. -/
theorem rsplit_access (s : String) :
    rsplitSlash1 (s ++ "/access_token.do") = (s, "access_token.do") := by
  have h := rsplit_append s ("access_token.do".data) (by decide)
  exact h

/-- `pyStrip` returns the empty string exactly when the input has no
    non-whitespace character. -/
theorem pyStrip_eq_empty_iff (s : String) :
    pyStrip s = "" ↔ s.toList.any (fun c => !c.isWhitespace) = false := by
  unfold pyStrip
  rw [String.ext_iff]
  show ((s.toList.dropWhile Char.isWhitespace).reverse.dropWhile Char.isWhitespace).reverse = [] ↔ _
  rw [List.reverse_eq_nil_iff, List.dropWhile_eq_nil_iff]
  constructor
  · intro h
    rw [List.any_eq_false]
    intro c hc
    have hw : c.isWhitespace = true := by
      rcases List.mem_append.mp
          ((List.takeWhile_append_dropWhile (p := Char.isWhitespace) (l := s.toList)) ▸ hc) with
        h1 | h1
      · exact List.mem_takeWhile_imp h1
      · exact h (c) (List.mem_reverse.mpr h1)
    simp [hw]
  · intro h c hc
    have hmem : c ∈ s.toList :=
      (List.dropWhile_sublist (p := Char.isWhitespace)).subset (List.mem_reverse.mp hc)
    have := List.any_eq_false.mp h c hmem
    simpa using this

/-- A successful per-entry hit always carries a non-blank string. -/
theorem tknHit_nonblank (k : String) (v : Json) (s : String) (h : tknHit k v = some s) :
    s.toList.any (fun c => !c.isWhitespace) = true := by
  unfold tknHit at h
  split at h
  · cases v with
    | str u =>
      simp only [] at h
      split at h
      · exact Option.noConfusion h
      · cases h
        rename_i hne
        cases ha : s.toList.any (fun c => !c.isWhitespace) with
        | true => rfl
        | false => exact absurd ((pyStrip_eq_empty_iff s).mpr ha) hne
    | null => exact Option.noConfusion h
    | bool b => exact Option.noConfusion h
    | num n => exact Option.noConfusion h
    | arr xs => exact Option.noConfusion h
    | obj kvs => exact Option.noConfusion h
  · exact Option.noConfusion h

/-- The per-entry hit of the code agrees with the spec-level hit test. -/
theorem tknHit_eq_spec (k : String) (v : Json) : tknHit k v = spec_key_hit k v := by
  unfold tknHit spec_key_hit
  by_cases hk : pyLower k = "tkn_info"
  · rw [if_pos hk, if_pos hk]
    cases v with
    | str u =>
      simp only []
      by_cases ha : u.toList.any (fun c => !c.isWhitespace) = true
      · have hne : ¬ (pyStrip u = "") := by
          intro he
          rw [pyStrip_eq_empty_iff] at he
          rw [he] at ha
          exact Bool.noConfusion ha
        rw [if_neg hne, if_pos ha]
      · have ha2 : u.toList.any (fun c => !c.isWhitespace) = false := by
          cases hx : u.toList.any (fun c => !c.isWhitespace) with
          | true => exact absurd hx ha
          | false => rfl
        rw [if_pos ((pyStrip_eq_empty_iff u).mpr ha2), if_neg ha]
    | null => rfl
    | bool b => rfl
    | num n => rfl
    | arr xs => rfl
    | obj kvs => rfl
  · rw [if_neg hk, if_neg hk]

mutual

/-- Any string `_find_token` returns contains a non-whitespace character. -/
theorem find_token_nonblank : ∀ (j : Json) (s : String),
    find_token j = some s → s.toList.any (fun c => !c.isWhitespace) = true
  | Json.null, _, h => Option.noConfusion h
  | Json.bool _, _, h => Option.noConfusion h
  | Json.num _, _, h => Option.noConfusion h
  | Json.str _, _, h => Option.noConfusion h
  | Json.obj kvs, s, h => find_token_entries_nonblank kvs s h
  | Json.arr xs, s, h => find_token_items_nonblank xs s h

/-- Entry-loop case of `find_token_nonblank`. -/
theorem find_token_entries_nonblank : ∀ (l : JsonEntries) (s : String),
    find_token_entries l = some s → s.toList.any (fun c => !c.isWhitespace) = true
  | JsonEntries.nil, _, h => Option.noConfusion h
  | JsonEntries.cons k v rest, s, h => by
    unfold find_token_entries at h
    split at h
    · rename_i t hh
      cases h
      exact tknHit_nonblank k v s hh
    · split at h
      · rename_i t hf
        by_cases ht : t = ""
        · rw [if_pos ht] at h
          exact find_token_entries_nonblank rest s h
        · rw [if_neg ht] at h
          cases h
          exact find_token_nonblank v s hf
      · exact find_token_entries_nonblank rest s h

/-- Item-loop case of `find_token_nonblank`. -/
theorem find_token_items_nonblank : ∀ (l : JsonItems) (s : String),
    find_token_items l = some s → s.toList.any (fun c => !c.isWhitespace) = true
  | JsonItems.nil, _, h => Option.noConfusion h
  | JsonItems.cons x rest, s, h => by
    unfold find_token_items at h
    split at h
    · rename_i t hf
      by_cases ht : t = ""
      · rw [if_pos ht] at h
        exact find_token_items_nonblank rest s h
      · rw [if_neg ht] at h
        cases h
        exact find_token_nonblank x s hf
    · exact find_token_items_nonblank rest s h

end

/-- `_find_token` never returns the empty string. -/
theorem find_token_ne_empty (j : Json) (s : String) (h : find_token j = some s) : s ≠ "" := by
  intro he
  subst he
  have := find_token_nonblank j "" h
  exact Bool.noConfusion this

mutual

/-- `_find_token` computes exactly the spec-level first-hit search. -/
theorem find_token_eq_spec_aux : ∀ (j : Json), find_token j = spec_first_hit j
  | Json.null => rfl
  | Json.bool _ => rfl
  | Json.num _ => rfl
  | Json.str _ => rfl
  | Json.obj kvs => by
    show find_token_entries kvs = spec_hit_entries kvs
    exact find_token_entries_eq_spec kvs
  | Json.arr xs => by
    show find_token_items xs = spec_hit_items xs
    exact find_token_items_eq_spec xs

/-- Entry-loop case of `find_token_eq_spec_aux`. -/
theorem find_token_entries_eq_spec : ∀ (l : JsonEntries),
    find_token_entries l = spec_hit_entries l
  | JsonEntries.nil => rfl
  | JsonEntries.cons k v rest => by
    unfold find_token_entries spec_hit_entries
    rw [tknHit_eq_spec]
    cases spec_key_hit k v with
    | some t => rfl
    | none =>
      simp only []
      rw [find_token_eq_spec_aux v]
      cases hf : spec_first_hit v with
      | some t =>
        have ht : t ≠ "" :=
          find_token_ne_empty v t (by rw [find_token_eq_spec_aux v]; exact hf)
        simp only [if_neg ht]
      | none =>
        simp only []
        exact find_token_entries_eq_spec rest

/-- Item-loop case of `find_token_eq_spec_aux`. -/
theorem find_token_items_eq_spec : ∀ (l : JsonItems),
    find_token_items l = spec_hit_items l
  | JsonItems.nil => rfl
  | JsonItems.cons x rest => by
    unfold find_token_items spec_hit_items
    rw [find_token_eq_spec_aux x]
    cases hf : spec_first_hit x with
    | some t =>
      have ht : t ≠ "" :=
        find_token_ne_empty x t (by rw [find_token_eq_spec_aux x]; exact hf)
      simp only [if_neg ht]
    | none =>
      simp only []
      exact find_token_items_eq_spec rest

end

/-- The document-style branch of the resolver, unfolded. -/
theorem split_doc_branch (u : String)
    (hdoc : isDocSegment (last_segment (rstripSlashes u)) = true) :
    split_base_and_token_endpoint u = (before_last (rstripSlashes u), rstripSlashes u) := by
  simp only [split_base_and_token_endpoint]
  rw [hdoc]
  rfl

/-- The bare-base branch of the resolver, unfolded. -/
theorem split_bare_branch (u : String)
    (hdoc : isDocSegment (last_segment (rstripSlashes u)) = false) :
    split_base_and_token_endpoint u = (rstripSlashes u, rstripSlashes u ++ "/access_token.do") := by
  simp only [split_base_and_token_endpoint]
  rw [hdoc]
  rfl

/-- The appended token path is recognized as document-style. -/
theorem access_token_docstyle : isDocSegment "access_token.do" = true := rfl

/-- Re-resolving the produced token endpoint changes nothing. -/
theorem split_stable_aux (u : String) :
    split_base_and_token_endpoint ((split_base_and_token_endpoint u).2) =
      split_base_and_token_endpoint u := by
  cases hdoc : isDocSegment (last_segment (rstripSlashes u)) with
  | true =>
    rw [split_doc_branch u hdoc]
    show split_base_and_token_endpoint (rstripSlashes u) = _
    have h2 : isDocSegment (last_segment (rstripSlashes (rstripSlashes u))) = true := by
      rw [rstripSlashes_idem]
      exact hdoc
    rw [split_doc_branch (rstripSlashes u) h2, rstripSlashes_idem]
  | false =>
    rw [split_bare_branch u hdoc]
    show split_base_and_token_endpoint (rstripSlashes u ++ "/access_token.do") = _
    have hseg : last_segment (rstripSlashes (rstripSlashes u ++ "/access_token.do")) =
        "access_token.do" := by
      rw [rstrip_append_doc]
      unfold last_segment
      rw [rsplit_access]
    have h2 : isDocSegment (last_segment (rstripSlashes (rstripSlashes u ++ "/access_token.do"))) = true := by
      rw [hseg]
      exact access_token_docstyle
    rw [split_doc_branch _ h2, rstrip_append_doc]
    unfold before_last
    rw [rsplit_access]

/-- The token endpoint produced by the resolver always ends in a
    document-style segment. -/
theorem token_endpoint_docstyle_aux (u : String) :
    isDocSegment (last_segment ((split_base_and_token_endpoint u).2)) = true := by
  cases hdoc : isDocSegment (last_segment (rstripSlashes u)) with
  | true =>
    rw [split_doc_branch u hdoc]
    exact hdoc
  | false =>
    rw [split_bare_branch u hdoc]
    show isDocSegment (last_segment (rstripSlashes u ++ "/access_token.do")) = true
    unfold last_segment
    rw [rsplit_access]
    exact access_token_docstyle

/- Helper lemmas about the retry wrappers. -/

/-- One `_request()` performs one token issuance and at most one business
    call, in that order. -/
theorem run_request_trace (net : Nat → HttpResponse) (i : Nat) (url context : String) :
    (run_request net i url context).2.1 = [CallKind.tokenIssue] ∨
    (run_request net i url context).2.1 = [CallKind.tokenIssue, CallKind.bizCall url] := by
  unfold run_request
  cases request_access_token (net i) with
  | error e => exact Or.inl rfl
  | ok t => exact Or.inr rfl

/-- Call counts of one `_request()`. -/
theorem run_request_counts (net : Nat → HttpResponse) (i : Nat) (url context : String) :
    countTokenIssue (run_request net i url context).2.1 = 1 ∧
    countBizCall (run_request net i url context).2.1 ≤ 1 := by
  rcases run_request_trace net i url context with h | h <;> rw [h]
  · exact ⟨rfl, Nat.zero_le 1⟩
  · exact ⟨rfl, Nat.le_refl 1⟩

/-- A failed `_request()` consumed one response (its failed token issuance)
    or two (token plus business call). -/
theorem run_request_next (net : Nat → HttpResponse) (i : Nat) (url context : String) :
    (run_request net i url context).2.2 = i + 1 ∨ (run_request net i url context).2.2 = i + 2 := by
  unfold run_request
  cases request_access_token (net i) with
  | error e => exact Or.inl rfl
  | ok t => exact Or.inr rfl

/-- When the first token issuance succeeds, `_request()` is the business call
    on the second response. -/
theorem run_request_of_token_ok (net : Nat → HttpResponse) (i : Nat) (url context : String)
    (t : String) (h : request_access_token (net i) = Except.ok t) :
    run_request net i url context =
      (post_market_endpoint (net (i + 1)) context,
        [CallKind.tokenIssue, CallKind.bizCall url], i + 2) := by
  unfold run_request
  rw [h]

/-- `request_access_token` never raises the expired-token error. -/
theorem request_access_token_not_expired (resp : HttpResponse) (m : String) :
    request_access_token resp ≠ Except.error (PyError.expiredToken m) := by
  unfold request_access_token
  split
  · intro h
    cases h
  · split
    · intro h
      cases h
    · split
      · split
        · intro h
          cases h
        · intro h
          cases h
      · intro h
        cases h

/- Branch lemmas for `request_access_token`. -/

/-- On a failure status, token issuance raises with the truncated body. -/
theorem request_access_token_status_fail (resp : HttpResponse)
    (hf : httpFailure resp.status_code = true) :
    request_access_token resp = Except.error (PyError.runtimeErr
      ("Token 요청 실패 (" ++ toString resp.status_code ++ "): " ++ pyTake 300 resp.text)) := by
  unfold request_access_token
  rw [hf]
  rfl

/-- On a success status with a non-JSON body, token issuance raises. -/
theorem request_access_token_not_json (resp : HttpResponse)
    (hf : httpFailure resp.status_code = false) (hb : resp.jsonBody = none) :
    request_access_token resp = Except.error (PyError.runtimeErr
      ("API response is not JSON: " ++ pyTake 300 resp.text)) := by
  simp only [request_access_token, hf, hb, Bool.false_eq_true, if_false]

/-- On a success status with a JSON body holding no token, token issuance
    raises with the full repr of the parsed body. -/
theorem request_access_token_no_token (resp : HttpResponse) (d : Json)
    (hf : httpFailure resp.status_code = false) (hb : resp.jsonBody = some d)
    (hn : find_token d = none) :
    request_access_token resp = Except.error (PyError.runtimeErr
      ("API response missing TKN_INFO. Body: " ++ pyRepr d)) := by
  simp only [request_access_token, hf, hb, hn, Bool.false_eq_true, if_false]

/- Claim theorems. -/

/-- C10: the URL Resolver is stable under re-resolution of its own token
    endpoint — resolving the token endpoint produced for `u` yields exactly
    the same (resource base, token endpoint) pair as resolving `u` itself. -/
theorem url_resolution_stable (u : String) :
    split_base_and_token_endpoint ((split_base_and_token_endpoint u).2) =
      split_base_and_token_endpoint u := split_stable_aux u

/-- C8 (counterexample): on the configured URL `https://host/a.json/b.do` the
    resolver returns resource base `https://host/a.json`, whose last path
    segment is itself document-style — refuting the claimed invariant that the
    resource base never ends in such a segment. -/
theorem resource_base_docstyle_cex :
    split_base_and_token_endpoint "https://host/a.json/b.do" =
      ("https://host/a.json", "https://host/a.json/b.do") ∧
    isDocSegment (last_segment "https://host/a.json") = true := ⟨rfl, rfl⟩

/-- C8 (amended): the token endpoint always ends in a document-style segment,
    but the resource base is only guaranteed not to when the resolver took the
    bare-base branch (that is, when the trailing-slash-stripped configured URL
    has no document-style last segment); a configured URL with two consecutive
    document-style segments makes the resource base end in one. -/
theorem endpoint_extension_invariant (u : String) :
    isDocSegment (last_segment ((split_base_and_token_endpoint u).2)) = true ∧
    (isDocSegment (last_segment (rstripSlashes u)) = false →
      isDocSegment (last_segment ((split_base_and_token_endpoint u).1)) = false) := by
  refine ⟨token_endpoint_docstyle_aux u, fun hdoc => ?_⟩
  rw [split_bare_branch u hdoc]
  exact hdoc

/-- C8 witness: the amended invariant at the bare base URL
    `https://host/api/v2/whsl`. -/
theorem endpoint_extension_invariant_witness :
    isDocSegment (last_segment ((split_base_and_token_endpoint "https://host/api/v2/whsl").2)) = true ∧
    isDocSegment (last_segment ((split_base_and_token_endpoint "https://host/api/v2/whsl").1)) = false :=
  ⟨(endpoint_extension_invariant "https://host/api/v2/whsl").1,
   (endpoint_extension_invariant "https://host/api/v2/whsl").2 (by decide)⟩

/-- C6: for a configured URL whose trailing-slash-stripped form has a
    document-style last segment (and does contain a path separator), the token
    endpoint is the normalized URL itself and the resource base is everything
    before the last path separator. -/
theorem doc_url_resolution (u : String)
    (hdoc : isDocSegment (last_segment (rstripSlashes u)) = true)
    (hsl : '/' ∈ (rstripSlashes u).toList) :
    (split_base_and_token_endpoint u).2 = rstripSlashes u ∧
    (split_base_and_token_endpoint u).1 ++ "/" ++ last_segment (rstripSlashes u) =
      rstripSlashes u ∧
    '/' ∉ (last_segment (rstripSlashes u)).toList := by
  obtain ⟨hre, hns⟩ := rsplit_decomp (rstripSlashes u) hsl
  rw [split_doc_branch u hdoc]
  exact ⟨rfl, hre, hns⟩

/-- C6 witness: resolution of the fully qualified token URL from the spec
    scenario. -/
theorem doc_url_resolution_witness :
    (split_base_and_token_endpoint "https://host/api/v2/whsl/access_token.do").2 =
      rstripSlashes "https://host/api/v2/whsl/access_token.do" ∧
    (split_base_and_token_endpoint "https://host/api/v2/whsl/access_token.do").1 ++ "/" ++
      last_segment (rstripSlashes "https://host/api/v2/whsl/access_token.do") =
      rstripSlashes "https://host/api/v2/whsl/access_token.do" ∧
    '/' ∉ (last_segment (rstripSlashes "https://host/api/v2/whsl/access_token.do")).toList :=
  doc_url_resolution "https://host/api/v2/whsl/access_token.do" (by decide) (by decide)

/-- C7: for a configured URL whose trailing-slash-stripped form has no
    document-style last segment, the resource base is the normalized URL and
    the token endpoint is the resource base with `/access_token.do` appended. -/
theorem bare_url_resolution (u : String)
    (hdoc : isDocSegment (last_segment (rstripSlashes u)) = false) :
    (split_base_and_token_endpoint u).1 = rstripSlashes u ∧
    (split_base_and_token_endpoint u).2 =
      (split_base_and_token_endpoint u).1 ++ "/access_token.do" := by
  rw [split_bare_branch u hdoc]
  exact ⟨rfl, rfl⟩

/-- C7 witness: resolution of the bare base URL from the spec scenario. -/
theorem bare_url_resolution_witness :
    (split_base_and_token_endpoint "https://host/api/v2/whsl").1 =
      rstripSlashes "https://host/api/v2/whsl" ∧
    (split_base_and_token_endpoint "https://host/api/v2/whsl").2 =
      (split_base_and_token_endpoint "https://host/api/v2/whsl").1 ++ "/access_token.do" :=
  bare_url_resolution "https://host/api/v2/whsl" (by decide)

/-- C5 (counterexample): the object `\x7b"TKN_INFO": " "\x7d` binds the
    matching key to the non-empty string `" "`, yet `_find_token` returns the
    not-found sentinel — refuting the claim that every non-empty string value
    under a matching key is returned. -/
theorem find_token_blank_value_cex :
    find_token c5_blank_obj = none ∧ (" " : String) ≠ "" := ⟨rfl, by decide⟩

/-- C5 (amended): `_find_token` computes exactly the spec-level depth-first
    first-hit search, where a hit is a key equal to `TKN_INFO`
    case-insensitively whose value is a string containing at least one
    non-whitespace character (rather than merely a non-empty string); in
    particular, with no such hit it returns the not-found sentinel, and being
    a total function it never throws. -/
theorem find_token_matches_spec_locator (j : Json) : find_token j = spec_first_hit j :=
  find_token_eq_spec_aux j

/-- C9: every string `_find_token` returns contains a non-whitespace
    character, and consequently every access token `request_access_token`
    returns is a non-empty string. -/
theorem locator_nonblank_token_nonempty :
    (∀ (j : Json) (s : String), find_token j = some s →
      s.toList.any (fun c => !c.isWhitespace) = true) ∧
    (∀ (resp : HttpResponse) (t : String), request_access_token resp = Except.ok t → t ≠ "") := by
  refine ⟨find_token_nonblank, fun resp t h => ?_⟩
  unfold request_access_token at h
  split at h
  · exact Except.noConfusion h
  · split at h
    · exact Except.noConfusion h
    · split at h
      · rename_i token hn
        by_cases htk : token = ""
        · rw [if_pos htk] at h
          exact Except.noConfusion h
        · rw [if_neg htk] at h
          cases h
          exact htk
      · exact Except.noConfusion h

/-- C9 witness: the token `"tok"` as located and as issued. -/
theorem locator_nonblank_token_nonempty_witness :
    (("tok" : String).toList.any (fun c => !c.isWhitespace) = true) ∧ (("tok" : String) ≠ "") :=
  ⟨locator_nonblank_token_nonempty.1
      (Json.obj (JsonEntries.cons "TKN_INFO" (Json.str "tok") JsonEntries.nil)) "tok" rfl,
   locator_nonblank_token_nonempty.2 tokenOkResp "tok" rfl⟩

/-- C3 (counterexample): at a success status whose body is the JSON literal
    `null`, the body does parse as JSON, yet `_post_market_endpoint` raises
    the not-JSON error instead of returning the parsed body: CPython's
    `resp.json()` yields `None` for a `null` body, and `data is None` cannot
    distinguish that from a parse failure — refuting the claim's "otherwise it
    returns the parsed JSON body". -/
theorem null_body_not_json_cex :
    (⟨200, "null", some Json.null⟩ : HttpResponse).jsonBody = some Json.null ∧
    post_market_endpoint ⟨200, "null", some Json.null⟩ "판매원장" =
      Except.error (PyError.runtimeErr "판매원장 응답이 JSON이 아닙니다: null") := ⟨rfl, rfl⟩

/-- C3 (amended): `_post_market_endpoint` classifies every response: on a
    failure status whose extracted `MESSAGE` contains the expiration marker it
    raises the expired-token signal carrying that message; on any other
    failure status it raises a generic error naming the operation, status
    code, and message or truncated body; on a success status whose body does
    not parse as JSON or parses to the JSON literal `null` (both give Python
    `None`) it raises a generic not-JSON error; otherwise — success status and
    a non-null parsed body — it returns the parsed body. -/
theorem business_call_classification (resp : HttpResponse) (context : String) :
    (httpFailure resp.status_code = true →
      strContainsSub (business_message resp) "만료" = true →
      post_market_endpoint resp context =
        Except.error (PyError.expiredToken (business_message resp))) ∧
    (httpFailure resp.status_code = true →
      strContainsSub (business_message resp) "만료" = false →
      post_market_endpoint resp context = Except.error (PyError.runtimeErr
        (context ++ " 요청 실패 (" ++ toString resp.status_code ++ "): " ++
          (if business_message resp = "" then pyTake 300 resp.text
           else business_message resp)))) ∧
    (httpFailure resp.status_code = false →
      resp.jsonBody = none ∨ resp.jsonBody = some Json.null →
      post_market_endpoint resp context = Except.error (PyError.runtimeErr
        (context ++ " 응답이 JSON이 아닙니다: " ++ pyTake 300 resp.text))) ∧
    (∀ d, httpFailure resp.status_code = false → resp.jsonBody = some d → d ≠ Json.null →
      post_market_endpoint resp context = Except.ok d) := by
  refine ⟨fun hf hc => ?_, fun hf hc => ?_, fun hf hb => ?_, fun d hf hb hnull => ?_⟩
  · have hne : business_message resp ≠ "" := by
      intro he
      rw [he] at hc
      exact Bool.noConfusion hc
    simp only [post_market_endpoint]
    rw [hf, if_pos rfl, if_pos ⟨hne, hc⟩, if_neg hne]
  · have hcond : ¬ (business_message resp ≠ "" ∧ strContainsSub (business_message resp) "만료" = true) := by
      intro hx
      rw [hc] at hx
      exact Bool.noConfusion hx.2
    simp only [post_market_endpoint]
    rw [hf, if_pos rfl, if_neg hcond]
  · rcases hb with hb | hb <;> simp only [post_market_endpoint] <;> rw [hf, hb] <;> rfl
  · simp only [post_market_endpoint]
    rw [hf, hb]
    cases d with
    | null => exact absurd rfl hnull
    | bool b => rfl
    | num n => rfl
    | str t => rfl
    | arr xs => rfl
    | obj kvs => rfl

/-- C3 witness: the four amended classification branches at concrete
    responses. -/
theorem business_call_classification_witness :
    post_market_endpoint expiredResp "판매원장" =
      Except.error (PyError.expiredToken "토큰이 만료되었습니다") ∧
    post_market_endpoint bizFailResp "판매원장" =
      Except.error (PyError.runtimeErr "판매원장 요청 실패 (500): server error") ∧
    post_market_endpoint notJsonResp "판매원장" =
      Except.error (PyError.runtimeErr "판매원장 응답이 JSON이 아닙니다: <html>") ∧
    post_market_endpoint bizOkResp "판매원장" = Except.ok (Json.obj JsonEntries.nil) :=
  ⟨(business_call_classification expiredResp "판매원장").1 rfl rfl,
   (business_call_classification bizFailResp "판매원장").2.1 rfl rfl,
   (business_call_classification notJsonResp "판매원장").2.2.1 rfl (Or.inl rfl),
   (business_call_classification bizOkResp "판매원장").2.2.2 (Json.obj JsonEntries.nil) rfl rfl
     (fun h => Json.noConfusion h)⟩

set_option maxRecDepth 100000 in
/-- C4 (counterexample): a success-status response with an empty raw text and
    a 400-character parsed body with no token makes `request_access_token`
    raise an error whose message is longer than 400 characters — the
    missing-token error embeds the full repr of the parsed body, so its
    excerpt of the response body is not bounded by 300 characters. -/
theorem token_error_message_unbounded_cex :
    request_access_token c4_resp = Except.error (PyError.runtimeErr
      ("API response missing TKN_INFO. Body: " ++ pyRepr c4_body)) ∧
    400 < ("API response missing TKN_INFO. Body: " ++ pyRepr c4_body).length ∧
    c4_resp.text = "" :=
  ⟨rfl, by decide, rfl⟩

/-- C4 (amended): `request_access_token` fails exactly when the status is a
    failure, the body is not JSON, or `_find_token` finds no token; the error
    excerpt of the raw response body is bounded by 300 characters in the
    bad-status and not-JSON cases, while the missing-token error instead
    embeds the unbounded repr of the parsed body. -/
theorem token_request_failure_modes (resp : HttpResponse) :
    ((∃ e, request_access_token resp = Except.error e) ↔
      (httpFailure resp.status_code = true ∨ resp.jsonBody = none ∨
        ∃ d, resp.jsonBody = some d ∧ find_token d = none)) ∧
    (httpFailure resp.status_code = true →
      request_access_token resp = Except.error (PyError.runtimeErr
        ("Token 요청 실패 (" ++ toString resp.status_code ++ "): " ++ pyTake 300 resp.text))) ∧
    (httpFailure resp.status_code = false → resp.jsonBody = none →
      request_access_token resp = Except.error (PyError.runtimeErr
        ("API response is not JSON: " ++ pyTake 300 resp.text))) ∧
    (∀ d, httpFailure resp.status_code = false → resp.jsonBody = some d → find_token d = none →
      request_access_token resp = Except.error (PyError.runtimeErr
        ("API response missing TKN_INFO. Body: " ++ pyRepr d))) ∧
    (pyTake 300 resp.text).length ≤ 300 := by
  refine ⟨⟨?_, ?_⟩, request_access_token_status_fail resp,
    request_access_token_not_json resp,
    fun d => request_access_token_no_token resp d, ?_⟩
  · intro he
    obtain ⟨e, he⟩ := he
    cases hf : httpFailure resp.status_code with
    | true => exact Or.inl rfl
    | false =>
      cases hb : resp.jsonBody with
      | none => exact Or.inr (Or.inl rfl)
      | some d =>
        cases hn : find_token d with
        | none => exact Or.inr (Or.inr ⟨d, rfl, hn⟩)
        | some t =>
          have ht := find_token_ne_empty d t hn
          have hok : request_access_token resp = Except.ok t := by
            simp only [request_access_token, hf, hb, hn, Bool.false_eq_true, if_false,
              if_neg ht]
          rw [hok] at he
          exact Except.noConfusion he
  · intro h
    rcases h with hf | hb | ⟨d, hb, hn⟩
    · exact ⟨_, request_access_token_status_fail resp hf⟩
    · cases hf : httpFailure resp.status_code with
      | true => exact ⟨_, request_access_token_status_fail resp hf⟩
      | false => exact ⟨_, request_access_token_not_json resp hf hb⟩
    · cases hf : httpFailure resp.status_code with
      | true => exact ⟨_, request_access_token_status_fail resp hf⟩
      | false => exact ⟨_, request_access_token_no_token resp d hf hb hn⟩
  · show (String.mk (resp.text.toList.take 300)).length ≤ 300
    have h1 : (String.mk (resp.text.toList.take 300)).length = (resp.text.toList.take 300).length := rfl
    rw [h1, List.length_take]
    exact min_le_left _ _

/-- C4 witness: the three failure modes at concrete responses. -/
theorem token_request_failure_modes_witness :
    request_access_token ⟨404, "nope", none⟩ =
      Except.error (PyError.runtimeErr "Token 요청 실패 (404): nope") ∧
    request_access_token ⟨200, "<html>", none⟩ =
      Except.error (PyError.runtimeErr "API response is not JSON: <html>") ∧
    request_access_token ⟨200, "", some (Json.obj JsonEntries.nil)⟩ =
      Except.error (PyError.runtimeErr "API response missing TKN_INFO. Body: \x7b\x7d") :=
  ⟨(token_request_failure_modes ⟨404, "nope", none⟩).2.1 rfl,
   (token_request_failure_modes ⟨200, "<html>", none⟩).2.2.1 rfl rfl,
   (token_request_failure_modes ⟨200, "", some (Json.obj JsonEntries.nil)⟩).2.2.2.1
     (Json.obj JsonEntries.nil) rfl rfl rfl⟩

/-- C1: for each business operation, when the first attempt's token issuance
    succeeds and its business call fails with the expired-token signal, the
    wrapper performs exactly one retry — one new token issuance followed by at
    most one repeated business call — whose entire outcome (success or any
    failure, including a second expired-token signal) is returned verbatim;
    the whole operation performs exactly two token issuances and at most two
    business calls. -/
theorem retry_once_on_expired (net : Nat → HttpResponse) (u t ms mt : String)
    (h1 : request_access_token (net 0) = Except.ok t)
    (hs : post_market_endpoint (net 1) "판매원장" = Except.error (PyError.expiredToken ms))
    (ht : post_market_endpoint (net 1) "거래정보" = Except.error (PyError.expiredToken mt)) :
    request_sales_price net u =
      ((run_request net 2 (sales_endpoint u) "판매원장").1,
        CallKind.tokenIssue :: CallKind.bizCall (sales_endpoint u) ::
          (run_request net 2 (sales_endpoint u) "판매원장").2.1) ∧
    request_trans_info net u =
      ((run_request net 2 (trans_endpoint u) "거래정보").1,
        CallKind.tokenIssue :: CallKind.bizCall (trans_endpoint u) ::
          (run_request net 2 (trans_endpoint u) "거래정보").2.1) ∧
    countTokenIssue (request_sales_price net u).2 = 2 ∧
    countBizCall (request_sales_price net u).2 ≤ 2 ∧
    countTokenIssue (request_trans_info net u).2 = 2 ∧
    countBizCall (request_trans_info net u).2 ≤ 2 := by
  have hfs := run_request_of_token_ok net 0 (sales_endpoint u) "판매원장" t h1
  have hft := run_request_of_token_ok net 0 (trans_endpoint u) "거래정보" t h1
  rw [show (0 : Nat) + 1 = 1 from rfl, show (0 : Nat) + 2 = 2 from rfl] at hfs hft
  have hseq : request_sales_price net u =
      ((run_request net 2 (sales_endpoint u) "판매원장").1,
        CallKind.tokenIssue :: CallKind.bizCall (sales_endpoint u) ::
          (run_request net 2 (sales_endpoint u) "판매원장").2.1) := by
    simp only [request_sales_price]
    rw [hfs, hs]
    rfl
  have hteq : request_trans_info net u =
      ((run_request net 2 (trans_endpoint u) "거래정보").1,
        CallKind.tokenIssue :: CallKind.bizCall (trans_endpoint u) ::
          (run_request net 2 (trans_endpoint u) "거래정보").2.1) := by
    simp only [request_trans_info]
    rw [hft, ht]
    rfl
  have hcs := run_request_counts net 2 (sales_endpoint u) "판매원장"
  have hct := run_request_counts net 2 (trans_endpoint u) "거래정보"
  refine ⟨hseq, hteq, ?_, ?_, ?_, ?_⟩
  · rw [hseq]
    simp only [countTokenIssue]
    rw [hcs.1]
  · rw [hseq]
    simp only [countBizCall]
    omega
  · rw [hteq]
    simp only [countTokenIssue]
    rw [hct.1]
  · rw [hteq]
    simp only [countBizCall]
    omega

/-- C1 witness: a transport whose first business call reports expiry; the
    sales operation returns the retry's outcome and performs two token
    issuances. -/
theorem retry_once_on_expired_witness :
    request_sales_price netExpireOnce "https://host/api" =
      ((run_request netExpireOnce 2 (sales_endpoint "https://host/api") "판매원장").1,
        CallKind.tokenIssue :: CallKind.bizCall (sales_endpoint "https://host/api") ::
          (run_request netExpireOnce 2 (sales_endpoint "https://host/api") "판매원장").2.1) ∧
    countTokenIssue (request_sales_price netExpireOnce "https://host/api").2 = 2 ∧
    countTokenIssue (request_trans_info netExpireOnce "https://host/api").2 = 2 :=
  ⟨(retry_once_on_expired netExpireOnce "https://host/api" "tok"
      "토큰이 만료되었습니다" "토큰이 만료되었습니다" rfl rfl rfl).1,
   (retry_once_on_expired netExpireOnce "https://host/api" "tok"
      "토큰이 만료되었습니다" "토큰이 만료되었습니다" rfl rfl rfl).2.2.1,
   (retry_once_on_expired netExpireOnce "https://host/api" "tok"
      "토큰이 만료되었습니다" "토큰이 만료되었습니다" rfl rfl rfl).2.2.2.2.1⟩

/-- C2: for each business operation, a first attempt failing with anything
    other than the expired-token signal is final: the error propagates
    verbatim, the trace holds exactly one token issuance and at most one
    business call, and no retry happens; moreover token issuance itself can
    never raise the expired-token signal, so a `TokenRequestError` never
    triggers the retry. -/
theorem no_retry_on_non_expired (net : Nat → HttpResponse) (u : String) (es et : PyError)
    (hes : ∀ m, es ≠ PyError.expiredToken m) (het : ∀ m, et ≠ PyError.expiredToken m)
    (hs : (run_request net 0 (sales_endpoint u) "판매원장").1 = Except.error es)
    (ht : (run_request net 0 (trans_endpoint u) "거래정보").1 = Except.error et) :
    request_sales_price net u =
      (Except.error es, (run_request net 0 (sales_endpoint u) "판매원장").2.1) ∧
    request_trans_info net u =
      (Except.error et, (run_request net 0 (trans_endpoint u) "거래정보").2.1) ∧
    countTokenIssue (request_sales_price net u).2 = 1 ∧
    countBizCall (request_sales_price net u).2 ≤ 1 ∧
    countTokenIssue (request_trans_info net u).2 = 1 ∧
    countBizCall (request_trans_info net u).2 ≤ 1 ∧
    (∀ (resp : HttpResponse) (m : String),
      request_access_token resp ≠ Except.error (PyError.expiredToken m)) := by
  have hseq : request_sales_price net u =
      (Except.error es, (run_request net 0 (sales_endpoint u) "판매원장").2.1) := by
    simp only [request_sales_price]
    rw [hs]
    cases es with
    | expiredToken m => exact absurd rfl (hes m)
    | runtimeErr m => rfl
  have hteq : request_trans_info net u =
      (Except.error et, (run_request net 0 (trans_endpoint u) "거래정보").2.1) := by
    simp only [request_trans_info]
    rw [ht]
    cases et with
    | expiredToken m => exact absurd rfl (het m)
    | runtimeErr m => rfl
  have hcs := run_request_counts net 0 (sales_endpoint u) "판매원장"
  have hct := run_request_counts net 0 (trans_endpoint u) "거래정보"
  refine ⟨hseq, hteq, ?_, ?_, ?_, ?_, request_access_token_not_expired⟩
  · rw [hseq]
    exact hcs.1
  · rw [hseq]
    exact hcs.2
  · rw [hteq]
    exact hct.1
  · rw [hteq]
    exact hct.2

/-- C2 witness: a transport whose token issuance always fails with status 500;
    both operations propagate the token error with a single token issuance. -/
theorem no_retry_on_non_expired_witness :
    request_sales_price netTokenFail "https://host/api" =
      (Except.error (PyError.runtimeErr "Token 요청 실패 (500): boom"),
        (run_request netTokenFail 0 (sales_endpoint "https://host/api") "판매원장").2.1) ∧
    countTokenIssue (request_sales_price netTokenFail "https://host/api").2 = 1 :=
  ⟨(no_retry_on_non_expired netTokenFail "https://host/api"
      (PyError.runtimeErr "Token 요청 실패 (500): boom")
      (PyError.runtimeErr "Token 요청 실패 (500): boom")
      (fun _ h => PyError.noConfusion h) (fun _ h => PyError.noConfusion h) rfl rfl).1,
   (no_retry_on_non_expired netTokenFail "https://host/api"
      (PyError.runtimeErr "Token 요청 실패 (500): boom")
      (PyError.runtimeErr "Token 요청 실패 (500): boom")
      (fun _ h => PyError.noConfusion h) (fun _ h => PyError.noConfusion h) rfl rfl).2.2.1⟩
